import Mathlib

/-!
Verification of the setspace.api request handlers.

The repository consists of near-duplicate serverless handlers:
* `src/api/setspace-function.js` — three variants of the Job Submission
  Orchestrator (the first, lines 4-157, is modelled below as
  `setspaceFnHandler`; the selection logic of the second, lines 279-287,
  is modelled as `klingSelect`).
* `src/unnamed/part_001` — two further Orchestrator variants
  (`part001v1`, lines 9-148, and `part001v2`, lines 161-315).
* `src/unnamed/part_000` — an Orchestrator variant whose `safeFilename`,
  kling-version selection and prediction-id check coincide textually with
  the corresponding code of `part001v2`.
* `src/api/poll-prediction.ts` — the single-shot Poller (`pollPrediction`,
  lines 10-43) and a fused Orchestrator+Poller with a bounded internal
  polling loop (`serveSetspace`, lines 46-262).
* `src/unnamed/part_002` — the edge-runtime Poller (`pollEdge`).

Strings are modelled as lists of characters (`Str`); machine effects
(storage writes, job-table reads/updates, outbound HTTP calls, sleeps)
are recorded in an explicit `Trace`; every external collaborator is an
oracle passed in as data, so each handler is a pure function from a
request and an environment to a response plus a trace.
-/

/-- Strings of the JavaScript source, modelled as lists of characters. -/
abbrev Str := List Char

/-- JS truthiness of an optional string field: an absent field
(`undefined`) and the empty string are both falsy. -/
def truthy : Option Str → Bool
  | none => false
  | some s => !s.isEmpty

/-- JS truthiness of an optional numeric field: absent and `0` are falsy. -/
def truthyNat : Option Nat → Bool
  | none => false
  | some n => n != 0

/-- JS `String.prototype.trim`: strip whitespace from both ends. -/
def jsTrim (s : Str) : Str :=
  ((s.dropWhile Char.isWhitespace).reverse.dropWhile Char.isWhitespace).reverse

/-- JS `String.prototype.endsWith`. -/
def jsEndsWith (s t : Str) : Bool := t.isSuffixOf s

/-- Value of a character in the standard base64 alphabet. -/
def b64Val (c : Char) : Option Nat :=
  if 'A' ≤ c ∧ c ≤ 'Z' then some (c.toNat - 65)
  else if 'a' ≤ c ∧ c ≤ 'z' then some (c.toNat - 97 + 26)
  else if '0' ≤ c ∧ c ≤ '9' then some (c.toNat - 48 + 52)
  else if c = '+' then some 62
  else if c = '/' then some 63
  else none

/-- Decode one final group of 6-bit values (2, 3 or 4 of them) to bytes. -/
def b64Group : List Nat → List Nat
  | [a, b] => [a * 4 + b / 16]
  | [a, b, c] => [a * 4 + b / 16, (b % 16) * 16 + c / 4]
  | [a, b, c, d] => [a * 4 + b / 16, (b % 16) * 16 + c / 4, (c % 4) * 64 + d]
  | _ => []

/-- Decode a list of 6-bit values to bytes, four values at a time. -/
def b64DecodeVals : List Nat → List Nat
  | a :: b :: c :: d :: rest => b64Group [a, b, c, d] ++ b64DecodeVals rest
  | rest => b64Group rest

/-- Node `Buffer.from(s, 'base64')`: best-effort decoding that never
throws — characters outside the base64 alphabet (including padding and
whitespace) are skipped and the remaining 6-bit values are decoded. -/
def bufferFromBase64 (s : Str) : List Nat :=
  b64DecodeVals (s.filterMap b64Val)

/-- Strip at most two trailing padding characters (forgiving base64). -/
def stripPad (t : Str) : Str :=
  match t.reverse with
  | '=' :: '=' :: r => r.reverse
  | '=' :: r => r.reverse
  | _ => t

/-- Web `atob`: strict base64 decoding per the forgiving-base64 spec.
ASCII whitespace is stripped; up to two trailing `=` are allowed when the
length is a multiple of four; any other irregularity (length ≡ 1 mod 4 or
a character outside the alphabet) throws, modelled as `none`. -/
def atobStrict (s : Str) : Option (List Nat) :=
  let t := s.filter (fun c => !c.isWhitespace)
  let t2 := if t.length % 4 == 0 then stripPad t else t
  if t2.length % 4 == 1 then none
  else if t2.any (fun c => (b64Val c).isNone) then none
  else some (b64DecodeVals (t2.filterMap b64Val))

/-- One row of the `jobs` table as selected by the handlers:
`camera_control, video_size, duration` (each column may be NULL). -/
structure JobRow where
  camera_control : Option Str
  video_size : Option Str
  duration : Option Nat
deriving DecidableEq

/-- The persisted Job record as far as the Poller claims need it:
lifecycle status plus the final video URL. -/
structure Job where
  status : Str
  video_url : Option Str
deriving DecidableEq

/-- A stored job is terminal when its status is one of the two terminal
statuses the fused handler writes (`"done"` on success, `"error"` on
failure). -/
def jobIsTerminal (j : Job) : Bool :=
  j.status = "done".data ∨ j.status = "error".data

/-- `jobRows.length !== 1` check followed by `jobRows[0]`: a unique row,
or failure. -/
def singleRow : List JobRow → Option JobRow
  | [r] => some r
  | _ => none

/-- The JSON body of a handler response, plus its HTTP status. Fields a
given handler does not emit are `none`/`false`. -/
structure HttpResp where
  status : Nat
  success : Bool
  error : Option Str
  predictionId : Option Str
  predStatus : Option Str
  output : Option Str
  videoUrl : Option Str
deriving DecidableEq

/-- An error response: non-200 status and a JSON `error` message. -/
def respErr (code : Nat) (msg : Str) : HttpResp :=
  ⟨code, false, some msg, none, none, none, none⟩

/-- The body of one outbound prediction-creation request. -/
structure ReplicateReq where
  prompt : Str
  start_image : Str
  duration : Option Nat
  version : Option Str
  model : Option Str
deriving DecidableEq

/-- Trace of a handler invocation's side effects: jobs-table reads,
storage writes (path and bytes), signed-URL issuances, jobs-table
updates, description-service calls, prediction-creation requests,
prediction-status queries, and sleeps (milliseconds). -/
structure Trace where
  jobReads : Nat
  storageWrites : List (Str × List Nat)
  signCalls : Nat
  jobUpdates : Nat
  openaiCalls : Nat
  replicateCreates : List ReplicateReq
  pollGets : Nat
  sleeps : List Nat
deriving DecidableEq

/-- The trace of an invocation that performed no side effect. -/
def emptyTrace : Trace := ⟨0, [], 0, 0, 0, [], 0, []⟩

/-- Trace of a Poller invocation that made one status query. -/
def pollTrace : Trace := ⟨0, [], 0, 0, 0, [], 1, []⟩

/-- Result of running a handler: the response sent plus the trace. -/
structure RunResult where
  resp : HttpResp
  trace : Trace
deriving DecidableEq

/-- The characters of `".jpg"`. -/
def jpgExt : Str := ".jpg".data

/-- `src/unnamed/part_000` line 41 and `src/unnamed/part_001` line 200:
`filename.endsWith('.jpg') ? filename : filename + '.jpg'`. -/
def safeFilename (filename : Str) : Str :=
  if jsEndsWith filename jpgExt then filename else filename ++ jpgExt

/-- The storage path `small/${safeFilename}` of those two variants. -/
def uploadPathOf (filename : Str) : Str :=
  "small/".data ++ safeFilename filename

/-- `part001v2` fallback description (`src/unnamed/part_001` lines 274,
280): `A realistic scene with ${cameraControl} camera movement and
natural ambient motion.` -/
def fallbackPromptFor (cameraControl : Str) : Str :=
  "A realistic scene with ".data ++ cameraControl ++
    " camera movement and natural ambient motion.".data

/-- Version hash of the high-tier model `kwaivgi/kling-v1.6-pro`. -/
def proVersionHash : Str :=
  "ab4d34d6acd764074179a8139cfb9b55803aecf0cfb83061707a0561d1616d50".data

/-- Version hash of the standard model `kwaivgi/kling-v1.6-standard`. -/
def stdVersionHash : Str :=
  "7e324e5fcb9479696f15ab6da262390cddf5a1efa2e11374ef9d1f85fc0f82da".data

/-- `src/unnamed/part_001` lines 285-287 (identical in
`src/unnamed/part_000` lines 106-108): version selection by size tier. -/
def klingVersionFor (videoSize : Str) : Str :=
  if videoSize = "1080p".data then proVersionHash else stdVersionHash

/-- `src/api/setspace-function.js` lines 279-287 (second handler):
model/version selection by size tier. -/
def klingSelect (videoSize : Str) : Str × Str :=
  if videoSize = "1080p".data then
    ("kwaivgi/kling-v1.6-pro".data, proVersionHash)
  else
    ("kwaivgi/kling-v1.6-standard".data, stdVersionHash)

/-- Request body common to the three-field Orchestrator variants:
`jobId`, `filename`, `smallImageBase64` required, `imageUrl` optional. -/
structure ReqV1 where
  jobId : Option Str
  filename : Option Str
  smallImageBase64 : Option Str
  imageUrl : Option Str
deriving DecidableEq

/-- `if (!jobId || !filename || !smallImageBase64)` — the three-field
validation used by `setspaceFnHandler`, `part001v1` and `serveSetspace`. -/
def reqV1Valid (req : ReqV1) : Bool :=
  truthy req.jobId && truthy req.filename && truthy req.smallImageBase64

/-- Request body of `part001v2` (`src/unnamed/part_001` lines 170-178):
all seven fields are required by its validation. -/
structure Req7 where
  jobId : Option Str
  filename : Option Str
  smallImageBase64 : Option Str
  imageUrl : Option Str
  camera_control : Option Str
  video_size : Option Str
  duration : Option Nat
deriving DecidableEq

/-- `src/unnamed/part_001` line 193: all seven request fields truthy. -/
def req7Valid (req : Req7) : Bool :=
  truthy req.jobId && truthy req.filename && truthy req.smallImageBase64 &&
  truthy req.imageUrl && truthy req.camera_control && truthy req.video_size &&
  truthyNat req.duration

/-- Outcome of a `fetch` + status-check + `json()` call: network error,
non-success HTTP response, or a parsed value. -/
inductive FetchJson (α : Type) where
  | netError (msg : Str)
  | notOk (body : Str)
  | ok (val : α)
deriving DecidableEq

/-- Description-service outcome handling of `setspaceFnHandler`
(`src/api/setspace-function.js` lines 90-118): no `ok` check; a thrown
error, absent content, or content that trims to the empty string all
leave the fallback `"A cinematic scene."` in place. -/
def v1Prompt (openai : Except Str (Option Str)) : Str :=
  match openai with
  | .error _ => "A cinematic scene.".data
  | .ok none => "A cinematic scene.".data
  | .ok (some c) =>
    let t := jsTrim c
    if t.isEmpty then "A cinematic scene.".data else t

/-- Description-service outcome handling of `part001v1` and
`serveSetspace`: a network error or non-success response also falls back
to `"A cinematic scene."`. -/
def fetchPrompt (openai : FetchJson (Option Str)) : Str :=
  match openai with
  | .netError _ => "A cinematic scene.".data
  | .notOk _ => "A cinematic scene.".data
  | .ok none => "A cinematic scene.".data
  | .ok (some c) =>
    let t := jsTrim c
    if t.isEmpty then "A cinematic scene.".data else t

/-- Description-service outcome handling of `part001v2`
(`src/unnamed/part_001` lines 264-281): on a thrown error, absent
content, or content trimming to empty, the fallback encoding the
camera-control instruction is substituted. -/
def v2Prompt (openai : Except Str (Option Str)) (cameraControl : Str) : Str :=
  match openai with
  | .error _ => fallbackPromptFor cameraControl
  | .ok none => fallbackPromptFor cameraControl
  | .ok (some c) =>
    let rawPrompt := jsTrim c
    if rawPrompt.isEmpty then fallbackPromptFor cameraControl else rawPrompt

/-- The description-service call counts as failed when it threw, returned
no content, or returned content trimming to the empty string. -/
def descFailed (openai : Except Str (Option Str)) : Bool :=
  match openai with
  | .error _ => true
  | .ok none => true
  | .ok (some c) => (jsTrim c).isEmpty

/-- External-collaborator oracles for `setspaceFnHandler`: jobs-table
select outcome, storage-upload error, signed-URL issuance outcome,
description-service outcome, prediction-creation outcome (`.ok` carries
the optional `id` of the parsed response). -/
structure EnvV1 where
  jobQuery : Except Str (List JobRow)
  uploadError : Option Str
  signUrl : Except Str Str
  openai : Except Str (Option Str)
  replicateCreate : Except Str (Option Str)

/-- `src/api/setspace-function.js`, first handler (lines 4-157): validate
the three required fields (400 on failure), select the unique job row
(camera control, size tier, duration), decode the image with the lenient
`Buffer.from`, upload it to `jobs/${filename}`, sign the URL, update the
job, call the description service (best-effort, fallback
`"A cinematic scene."`), create the prediction (model fixed to
`kwaivgi/kling-v1.6-standard` in the URL; `start_image` prefers the
caller's `imageUrl` via `??`), persist prompt/handle/status and answer
`{success: true, predictionId}` — without ever checking that the
prediction response contained an `id`. The camera-control and size-tier
values only flow into the description-service request text, which the
oracle already accounts for. -/
def setspaceFnHandler (req : ReqV1) (env : EnvV1) : RunResult :=
  if !reqV1Valid req then
    ⟨respErr 400 "Missing jobId, filename, or smallImageBase64".data, emptyTrace⟩
  else
    match env.jobQuery with
    | .error _ =>
      ⟨respErr 500 "Could not find unique job row".data, ⟨1, [], 0, 0, 0, [], 0, []⟩⟩
    | .ok rows =>
      match singleRow rows with
      | none =>
        ⟨respErr 500 "Could not find unique job row".data, ⟨1, [], 0, 0, 0, [], 0, []⟩⟩
      | some row =>
        let _cameraControl := row.camera_control.getD "stationary".data
        let _videoSize := row.video_size.getD "720p".data
        let videoDuration := row.duration.getD 5
        let binary := bufferFromBase64 (req.smallImageBase64.getD [])
        let smallPath := "jobs/".data ++ (req.filename.getD [])
        match env.uploadError with
        | some m =>
          ⟨respErr 500 ("Upload failed: ".data ++ m),
            ⟨1, [(smallPath, binary)], 0, 0, 0, [], 0, []⟩⟩
        | none =>
          match env.signUrl with
          | .error _ =>
            ⟨respErr 500 "Failed to sign URL".data,
              ⟨1, [(smallPath, binary)], 1, 0, 0, [], 0, []⟩⟩
          | .ok signedSmallImageUrl =>
            let prompt := v1Prompt env.openai
            let rreq : ReplicateReq :=
              ⟨prompt, req.imageUrl.getD signedSmallImageUrl, some videoDuration, none,
                some "kwaivgi/kling-v1.6-standard".data⟩
            match env.replicateCreate with
            | .error m =>
              ⟨respErr 500 m, ⟨1, [(smallPath, binary)], 1, 1, 1, [rreq], 0, []⟩⟩
            | .ok idOpt =>
              ⟨⟨200, true, none, idOpt, none, none, none⟩,
                ⟨1, [(smallPath, binary)], 1, 2, 1, [rreq], 0, []⟩⟩

/-- Oracles for `part001v1`: upload error, Supabase base URL, signed URL
fragment returned by the sign endpoint (whose errors the source never
checks), description-service outcome, prediction-creation outcome. -/
structure EnvP1 where
  uploadError : Option Str
  supabaseUrl : Str
  signedURL : Str
  openai : FetchJson (Option Str)
  replicateCreate : Except Str (Option Str)

/-- `src/unnamed/part_001`, first handler (lines 9-148): the three-field
validation is a `throw new Error("Missing required fields")` that the
outer catch converts into a **500** response; upload to
`jobs/${filename}`; sign via raw fetch with no error check; update the
job; best-effort description call with fallback `"A cinematic scene."`;
create the prediction (standard model in the URL, `duration: 5`
hardcoded, `start_image` prefers `imageUrl` via `??`); persist
prompt/handle/status; answer `{success: true}` without a prediction id
and without checking that one was returned. -/
def part001v1 (req : ReqV1) (env : EnvP1) : RunResult :=
  if !reqV1Valid req then
    ⟨respErr 500 "Missing required fields".data, emptyTrace⟩
  else
    let smallImageBuffer := bufferFromBase64 (req.smallImageBase64.getD [])
    let path := "jobs/".data ++ (req.filename.getD [])
    match env.uploadError with
    | some m =>
      ⟨respErr 500 ("Upload failed: ".data ++ m),
        ⟨0, [(path, smallImageBuffer)], 0, 0, 0, [], 0, []⟩⟩
    | none =>
      let signedSmallImageUrl := env.supabaseUrl ++ "/storage/v1/".data ++ env.signedURL
      let prompt := fetchPrompt env.openai
      let rreq : ReplicateReq :=
        ⟨prompt, req.imageUrl.getD signedSmallImageUrl, some 5, none,
          some "kwaivgi/kling-v1.6-standard".data⟩
      match env.replicateCreate with
      | .error m =>
        ⟨respErr 500 m, ⟨0, [(path, smallImageBuffer)], 1, 1, 1, [rreq], 0, []⟩⟩
      | .ok _ =>
        ⟨⟨200, true, none, none, none, none, none⟩,
          ⟨0, [(path, smallImageBuffer)], 1, 2, 1, [rreq], 0, []⟩⟩

/-- Oracles for `part001v2`: upload error, signed-URL issuance,
description-service outcome, prediction-creation outcome. -/
structure EnvV2 where
  uploadError : Option Str
  signUrl : Except Str Str
  openai : Except Str (Option Str)
  replicateCreate : Except Str (Option Str)

/-- `src/unnamed/part_001`, second handler (lines 161-315): all seven
request fields are required (400 on failure); the filename is normalized
with `safeFilename` and stored under `small/`; the description call falls
back to the camera-control-encoding prompt; the prompt is truncated with
`slice(0, 350)`; the kling version is selected from the size tier; a
prediction response without a truthy `id` is a thrown error (500); on
success the handler answers `{success: true, predictionId}`. This
variant performs no jobs-table access. -/
def part001v2 (req : Req7) (env : EnvV2) : RunResult :=
  if !req7Valid req then
    ⟨respErr 400 "Missing required fields".data, emptyTrace⟩
  else
    let cameraControl := req.camera_control.getD []
    let uploadPath := uploadPathOf (req.filename.getD [])
    let buffer := bufferFromBase64 (req.smallImageBase64.getD [])
    match env.uploadError with
    | some _ =>
      ⟨respErr 500 "Failed to upload small image".data,
        ⟨0, [(uploadPath, buffer)], 0, 0, 0, [], 0, []⟩⟩
    | none =>
      match env.signUrl with
      | .error _ =>
        ⟨respErr 500 "Failed to create signed URL".data,
          ⟨0, [(uploadPath, buffer)], 1, 0, 0, [], 0, []⟩⟩
      | .ok signedImageUrl =>
        let cinematicPrompt := v2Prompt env.openai cameraControl
        let safePrompt := cinematicPrompt.take 350
        let klingVersion := klingVersionFor (req.video_size.getD [])
        let rreq : ReplicateReq := ⟨safePrompt, signedImageUrl, none, some klingVersion, none⟩
        match env.replicateCreate with
        | .error m =>
          ⟨respErr 500 m, ⟨0, [(uploadPath, buffer)], 1, 0, 1, [rreq], 0, []⟩⟩
        | .ok idOpt =>
          if truthy idOpt then
            ⟨⟨200, true, none, idOpt, none, none, none⟩,
              ⟨0, [(uploadPath, buffer)], 1, 0, 1, [rreq], 0, []⟩⟩
          else
            ⟨respErr 500 "Replicate prediction failed: No valid ID.".data,
              ⟨0, [(uploadPath, buffer)], 1, 0, 1, [rreq], 0, []⟩⟩

/-- One parsed prediction-status response: `status` and `output`. -/
structure PollData where
  status : Str
  output : Option Str
deriving DecidableEq

/-- How the bounded polling loop of `serveSetspace` ended: `break` with
the observed output, a failed/canceled status, or fuel exhaustion. -/
inductive LoopOutcome where
  | success (output : Option Str)
  | failure (status : Str)
  | exhausted
deriving DecidableEq

/-- The fixed polling interval: `setTimeout(r, 6000)`. -/
def pollIntervalMs : Nat := 6000

/-- `src/api/poll-prediction.ts` lines 201-221: `for (let i = 0; i < 32;
i++)` — sleep 6000 ms, query the prediction, `break` on `"succeeded"`,
abort on `"failed"`/`"canceled"`, otherwise continue. The second
component records one sleep per executed iteration, so its length is the
number of status queries made. -/
def pollLoopFrom (poll : Nat → PollData) (i fuel : Nat) : LoopOutcome × List Nat :=
  match fuel with
  | 0 => (.exhausted, [])
  | Nat.succ f =>
    let d := poll i
    if d.status = "succeeded".data then (.success d.output, [pollIntervalMs])
    else if d.status = "failed".data || d.status = "canceled".data then
      (.failure d.status, [pollIntervalMs])
    else
      let r := pollLoopFrom poll (i + 1) f
      (r.1, pollIntervalMs :: r.2)

/-- A prediction status on which the loop stops. -/
def terminalPollStatus (s : Str) : Bool :=
  s = "succeeded".data || s = "failed".data || s = "canceled".data

/-- Oracles for `serveSetspace`, including the per-iteration poll
outcomes of the internal loop. -/
structure EnvServe where
  jobQuery : Except Str (List JobRow)
  uploadError : Option Str
  supabaseUrl : Str
  signedURL : Str
  openai : FetchJson (Option Str)
  replicateCreate : Except Str (Option Str)
  poll : Nat → PollData

/-- Tail of the `serve` handler after the prediction has been created
and the job marked `generating`: dispatch on how the bounded polling
loop ended (`src/api/poll-prediction.ts` lines 200-237). -/
def serveFinish (smallPath : Str) (bytes : List Nat) (rreq : ReplicateReq)
    (lr : LoopOutcome × List Nat) : RunResult :=
  match lr.1 with
  | .failure st =>
    ⟨respErr 500 ("Replicate failed: ".data ++ st),
      ⟨1, [(smallPath, bytes)], 1, 3, 1, [rreq], lr.2.length, lr.2⟩⟩
  | .exhausted =>
    ⟨respErr 500 "Video not ready after polling".data,
      ⟨1, [(smallPath, bytes)], 1, 2, 1, [rreq], lr.2.length, lr.2⟩⟩
  | .success out =>
    if truthy out then
      ⟨⟨200, true, none, none, none, none, out⟩,
        ⟨1, [(smallPath, bytes)], 1, 3, 1, [rreq], lr.2.length, lr.2⟩⟩
    else
      ⟨respErr 500 "Video not ready after polling".data,
        ⟨1, [(smallPath, bytes)], 1, 2, 1, [rreq], lr.2.length, lr.2⟩⟩

/-- `src/api/poll-prediction.ts`, `serve` handler (lines 46-262): the
fused Orchestrator+Poller. Missing required fields throw inside the
body-parse `try` and yield a 400 `"Invalid JSON body"`; the job row is
selected; the image is decoded with the **strict** `atob` (a malformed
payload throws, which the outer catch turns into a 500, before any
storage write); upload, sign (unchecked fetch), job update, best-effort
description call, prediction creation; then the job is marked
`generating` and the bounded loop polls up to 32 times. A
failed/canceled status marks the job `error` and yields a 500; a
succeeded status with truthy output marks the job `done` and yields
`{success: true, videoUrl}`; anything else — exhaustion, or success with
falsy output — yields the 500 `"Video not ready after polling"`. -/
def serveSetspace (req : ReqV1) (env : EnvServe) : RunResult :=
  if !reqV1Valid req then
    ⟨respErr 400 "Invalid JSON body".data, emptyTrace⟩
  else
    match env.jobQuery with
    | .error _ =>
      ⟨respErr 500 "Could not find unique job row".data, ⟨1, [], 0, 0, 0, [], 0, []⟩⟩
    | .ok rows =>
      match singleRow rows with
      | none =>
        ⟨respErr 500 "Could not find unique job row".data, ⟨1, [], 0, 0, 0, [], 0, []⟩⟩
      | some row =>
        let videoDuration := row.duration.getD 5
        match atobStrict (req.smallImageBase64.getD []) with
        | none => ⟨respErr 500 "InvalidCharacterError".data, ⟨1, [], 0, 0, 0, [], 0, []⟩⟩
        | some bytes =>
          let smallPath := "jobs/".data ++ (req.filename.getD [])
          match env.uploadError with
          | some m =>
            ⟨respErr 500 ("Upload failed: ".data ++ m),
              ⟨1, [(smallPath, bytes)], 0, 0, 0, [], 0, []⟩⟩
          | none =>
            let signedSmallImageUrl := env.supabaseUrl ++ "/storage/v1/".data ++ env.signedURL
            let prompt := fetchPrompt env.openai
            let rreq : ReplicateReq :=
              ⟨prompt, req.imageUrl.getD signedSmallImageUrl, some videoDuration, none,
                some "kwaivgi/kling-v1.6-standard".data⟩
            match env.replicateCreate with
            | .error m =>
              ⟨respErr 500 m, ⟨1, [(smallPath, bytes)], 1, 1, 1, [rreq], 0, []⟩⟩
            | .ok _ =>
              serveFinish smallPath bytes rreq (pollLoopFrom env.poll 0 32)

/-- `src/api/poll-prediction.ts`, first handler (lines 10-43): the
single-shot Poller. A missing (or empty) `predictionId` is answered with
400 before any outbound call; otherwise exactly one
`replicate.predictions.get` is made and its status/output are returned
(`{status, output}`, no `success` field); a thrown error or a falsy
prediction yields a 500. -/
def pollPrediction (predictionId : Option Str)
    (getPred : Except Str (Option PollData)) : RunResult :=
  if !truthy predictionId then
    ⟨respErr 400 "Missing or invalid predictionId".data, emptyTrace⟩
  else
    match getPred with
    | .error m => ⟨respErr 500 m, pollTrace⟩
    | .ok none => ⟨respErr 500 "Prediction not found".data, pollTrace⟩
    | .ok (some p) =>
      ⟨⟨200, false, none, none, some p.status, p.output, none⟩, pollTrace⟩

/-- `src/unnamed/part_002`, edge-runtime Poller: missing `predictionId`
is answered with 400 before any outbound call; otherwise one fetch of
the prediction is made; a non-success response throws (`Replicate status
check failed`, 500); on success the handler answers
`{success: true, prediction}`. -/
def pollEdge (predictionId : Option Str) (fetchPred : FetchJson PollData) : RunResult :=
  if !truthy predictionId then
    ⟨respErr 400 "Missing predictionId".data, emptyTrace⟩
  else
    match fetchPred with
    | .netError m => ⟨respErr 500 m, pollTrace⟩
    | .notOk _ => ⟨respErr 500 "Replicate status check failed".data, pollTrace⟩
    | .ok p => ⟨⟨200, true, none, none, some p.status, p.output, none⟩, pollTrace⟩

/-- The polling loop makes at most `fuel` status queries. -/
theorem pollLoopFrom_sleeps_length_le (poll : Nat → PollData) (i fuel : Nat) :
    ((pollLoopFrom poll i fuel).2).length ≤ fuel := by
  induction fuel generalizing i with
  | zero => simp [pollLoopFrom]
  | succ f ih =>
    unfold pollLoopFrom
    dsimp only
    split
    · simp
    · split
      · simp
      · simpa using Nat.succ_le_succ (ih (i + 1))

/-- Every sleep the polling loop performs is the fixed 6000 ms interval. -/
theorem pollLoopFrom_sleeps_six (poll : Nat → PollData) (i fuel : Nat) :
    ∀ t ∈ (pollLoopFrom poll i fuel).2, t = pollIntervalMs := by
  induction fuel generalizing i with
  | zero => simp [pollLoopFrom]
  | succ f ih =>
    unfold pollLoopFrom
    dsimp only
    split
    · simp
    · split
      · simp
      · intro t ht
        simp only [List.mem_cons] at ht
        rcases ht with h | h
        · exact h
        · exact ih (i + 1) t h

/-- If no queried status is terminal, the loop runs its full fuel and
ends exhausted, having slept 6000 ms before each of the `fuel` queries. -/
theorem pollLoopFrom_exhausted (poll : Nat → PollData) (i fuel : Nat)
    (h : ∀ j, j < fuel → terminalPollStatus ((poll (i + j)).status) = false) :
    pollLoopFrom poll i fuel = (LoopOutcome.exhausted, List.replicate fuel pollIntervalMs) := by
  induction fuel generalizing i with
  | zero => simp [pollLoopFrom]
  | succ f ih =>
    have h0 : terminalPollStatus ((poll i).status) = false := by
      simpa using h 0 (Nat.succ_pos f)
    simp only [terminalPollStatus, Bool.or_eq_false_iff, decide_eq_false_iff_not] at h0
    obtain ⟨⟨hs, hf⟩, hc⟩ := h0
    unfold pollLoopFrom
    dsimp only
    rw [if_neg hs, if_neg (by simp [hf, hc]), ih (i + 1) ?_]
    · simp [List.replicate_succ]
    · intro j hj
      have heq : i + 1 + j = i + (j + 1) := by omega
      rw [heq]
      exact h (j + 1) (Nat.succ_lt_succ hj)

/-- When the description-service call failed, `v1Prompt` is the fixed
fallback. -/
theorem v1Prompt_of_descFailed (op : Except Str (Option Str))
    (hop : descFailed op = true) : v1Prompt op = "A cinematic scene.".data := by
  rcases op with m | c
  · rfl
  · rcases c with _ | c
    · rfl
    · simp only [descFailed] at hop
      simp [v1Prompt, hop]

/-- When the description-service call failed, `v2Prompt` is the fallback
that encodes the camera-control instruction. -/
theorem v2Prompt_of_descFailed (op : Except Str (Option Str)) (cc : Str)
    (hop : descFailed op = true) : v2Prompt op cc = fallbackPromptFor cc := by
  rcases op with m | c
  · rfl
  · rcases c with _ | c
    · rfl
    · simp only [descFailed] at hop
      simp [v2Prompt, hop]

/-- Run equation for `setspaceFnHandler` when every collaborator call
succeeds (with an arbitrary description outcome and an arbitrary parsed
prediction id). -/
theorem setspaceFn_run (req : ReqV1) (row : JobRow) (u : Str)
    (op : Except Str (Option Str)) (idOpt : Option Str)
    (hv : reqV1Valid req = true) :
    setspaceFnHandler req ⟨Except.ok [row], none, Except.ok u, op, Except.ok idOpt⟩ =
      ⟨⟨200, true, none, idOpt, none, none, none⟩,
        ⟨1, [("jobs/".data ++ (req.filename.getD []),
              bufferFromBase64 (req.smallImageBase64.getD []))],
          1, 2, 1,
          [⟨v1Prompt op, req.imageUrl.getD u, some (row.duration.getD 5), none,
            some "kwaivgi/kling-v1.6-standard".data⟩], 0, []⟩⟩ := by
  unfold setspaceFnHandler
  rw [hv]
  rfl

/-- Run equation for `part001v2` when upload, signing and prediction
creation succeed and a truthy prediction id is returned. -/
theorem part001v2_run (req : Req7) (op : Except Str (Option Str)) (u pid : Str)
    (hv : req7Valid req = true) (hpid : pid.isEmpty = false) :
    part001v2 req ⟨none, Except.ok u, op, Except.ok (some pid)⟩ =
      ⟨⟨200, true, none, some pid, none, none, none⟩,
        ⟨0, [(uploadPathOf (req.filename.getD []),
              bufferFromBase64 (req.smallImageBase64.getD []))],
          1, 0, 1,
          [⟨(v2Prompt op (req.camera_control.getD [])).take 350, u, none,
            some (klingVersionFor (req.video_size.getD [])), none⟩], 0, []⟩⟩ := by
  unfold part001v2
  rw [hv]
  simp [truthy, hpid]

/-- `serveFinish` always reports one status query per recorded sleep. -/
theorem serveFinish_pollGets (smallPath : Str) (bytes : List Nat) (rreq : ReplicateReq)
    (lr : LoopOutcome × List Nat) :
    (serveFinish smallPath bytes rreq lr).trace.pollGets = lr.2.length := by
  rcases lr with ⟨o, sl⟩
  cases o with
  | success out =>
    unfold serveFinish
    dsimp only
    split <;> rfl
  | failure st => rfl
  | exhausted => rfl

/-- `serveFinish` propagates the loop's sleeps into the trace. -/
theorem serveFinish_sleeps (smallPath : Str) (bytes : List Nat) (rreq : ReplicateReq)
    (lr : LoopOutcome × List Nat) :
    (serveFinish smallPath bytes rreq lr).trace.sleeps = lr.2 := by
  rcases lr with ⟨o, sl⟩
  cases o with
  | success out =>
    unfold serveFinish
    dsimp only
    split <;> rfl
  | failure st => rfl
  | exhausted => rfl

/-- Every invocation of the fused handler makes at most 32 prediction
status queries. -/
theorem serve_pollGets_le (req : ReqV1) (env : EnvServe) :
    (serveSetspace req env).trace.pollGets ≤ 32 := by
  have hlen := pollLoopFrom_sleeps_length_le env.poll 0 32
  unfold serveSetspace
  repeat' split
  all_goals simp_all [emptyTrace, serveFinish_pollGets]

/-- Every sleep of the fused handler is the fixed 6000 ms interval. -/
theorem serve_sleeps_six (req : ReqV1) (env : EnvServe) :
    ∀ t ∈ (serveSetspace req env).trace.sleeps, t = pollIntervalMs := by
  have hsix := pollLoopFrom_sleeps_six env.poll 0 32
  unfold serveSetspace
  repeat' split
  all_goals try simp_all [emptyTrace, serveFinish_sleeps]
  all_goals exact hsix

/-- C10: in the variants that normalize the storage path, the uploaded
object's path always ends in ".jpg" — the supplied filename is used
unchanged when it already ends in ".jpg" and otherwise gets ".jpg"
appended — so the storage path is not always literally the
caller-supplied filename. -/
theorem C10_storage_path_jpg (filename : Str) :
    jsEndsWith (uploadPathOf filename) jpgExt = true ∧
    (jsEndsWith filename jpgExt = true → safeFilename filename = filename) ∧
    (jsEndsWith filename jpgExt = false → safeFilename filename = filename ++ jpgExt) ∧
    safeFilename "room1".data ≠ "room1".data := by
  refine ⟨?_, ?_, ?_, by decide⟩
  · unfold uploadPathOf safeFilename
    by_cases h : jsEndsWith filename jpgExt = true
    · rw [if_pos h]
      unfold jsEndsWith at h ⊢
      rw [List.isSuffixOf_iff_suffix] at h ⊢
      exact h.trans (List.suffix_append _ _)
    · rw [if_neg h]
      unfold jsEndsWith
      rw [List.isSuffixOf_iff_suffix]
      exact (List.suffix_append filename jpgExt).trans (List.suffix_append _ _)
  · intro h
    unfold safeFilename
    rw [if_pos h]
  · intro h
    unfold safeFilename
    rw [if_neg (by simp [h])]

/-- C10 witness: a filename already ending in ".jpg" is kept, one without
the extension gets it appended, and the resulting path ends in ".jpg". -/
theorem C10_storage_path_jpg_witness :
    jsEndsWith (uploadPathOf "a.jpg".data) jpgExt = true ∧
    safeFilename "a.jpg".data = "a.jpg".data ∧
    safeFilename "room1".data = "room1".data ++ jpgExt :=
  ⟨(C10_storage_path_jpg "a.jpg".data).1,
   (C10_storage_path_jpg "a.jpg".data).2.1 (by decide),
   (C10_storage_path_jpg "room1".data).2.2.1 (by decide)⟩

/-- C8: a Poller invocation with a missing `predictionId` is answered
with a 400 validation error, and no outbound call is made — in both the
single-shot Poller and the edge-runtime Poller, for every outcome the
external service could have produced. -/
theorem C8_missing_id_no_call (g : Except Str (Option PollData)) (f : FetchJson PollData) :
    (pollPrediction none g).resp.status = 400 ∧
    (pollPrediction none g).resp.error = some "Missing or invalid predictionId".data ∧
    (pollPrediction none g).trace = emptyTrace ∧
    (pollEdge none f).resp.status = 400 ∧
    (pollEdge none f).resp.error = some "Missing predictionId".data ∧
    (pollEdge none f).trace = emptyTrace :=
  ⟨rfl, rfl, rfl, rfl, rfl, rfl⟩

/-- C2 counterexample: with a stored job already terminal (`"done"` with
a video URL), a Poller invocation still issues one query to the external
service and returns the service's current answer (here `"failed"`), not
the stored terminal result — the Poller never consults the job record. -/
theorem C2_requeries_terminal_cex :
    jobIsTerminal ⟨"done".data, some "https://video".data⟩ = true ∧
    (pollPrediction (some "p1".data)
        (Except.ok (some ⟨"failed".data, none⟩))).trace.pollGets = 1 ∧
    (pollPrediction (some "p1".data)
        (Except.ok (some ⟨"failed".data, none⟩))).resp.predStatus = some "failed".data ∧
    "failed".data ≠ "done".data := by
  exact ⟨by decide, by decide, by decide, by decide⟩

/-- C2 amended: the Poller does not consult the stored job record at
all — every invocation carrying a prediction id issues exactly one query
to the external prediction service and reports that service's current
status, even when the stored job is already terminal. -/
theorem C2_always_queries (job : Job) (pid : Str) (g : Except Str (Option PollData))
    (f : FetchJson PollData)
    (_hterm : jobIsTerminal job = true) (hpid : pid.isEmpty = false) :
    (pollPrediction (some pid) g).trace.pollGets = 1 ∧
    (pollEdge (some pid) f).trace.pollGets = 1 := by
  constructor
  · unfold pollPrediction
    rw [if_neg (by simp [truthy, hpid])]
    rcases g with m | o
    · rfl
    · rcases o with _ | p <;> rfl
  · unfold pollEdge
    rw [if_neg (by simp [truthy, hpid])]
    rcases f with m | b | p <;> rfl

/-- C2 amended witness: a terminal stored job, a present prediction id. -/
theorem C2_always_queries_witness :
    (pollPrediction (some "p1".data) (Except.ok none)).trace.pollGets = 1 ∧
    (pollEdge (some "p1".data) (FetchJson.ok ⟨"succeeded".data, some "u".data⟩)).trace.pollGets = 1 :=
  C2_always_queries ⟨"error".data, none⟩ "p1".data (Except.ok none)
    (FetchJson.ok ⟨"succeeded".data, some "u".data⟩) (by decide) (by decide)

/-- Run equation for the fused handler once every step up to the polling
loop has succeeded: the result is `serveFinish` on the loop's outcome. -/
theorem serve_run_loop (req : ReqV1) (env : EnvServe) (row : JobRow) (bytes : List Nat)
    (idOpt : Option Str)
    (hv : reqV1Valid req = true) (hq : env.jobQuery = Except.ok [row])
    (hdec : atobStrict (req.smallImageBase64.getD []) = some bytes)
    (hup : env.uploadError = none) (hrc : env.replicateCreate = Except.ok idOpt) :
    serveSetspace req env =
      serveFinish ("jobs/".data ++ (req.filename.getD [])) bytes
        ⟨fetchPrompt env.openai,
         req.imageUrl.getD (env.supabaseUrl ++ "/storage/v1/".data ++ env.signedURL),
         some (row.duration.getD 5), none, some "kwaivgi/kling-v1.6-standard".data⟩
        (pollLoopFrom env.poll 0 32) := by
  unfold serveSetspace
  rw [hv, hq, hdec, hup, hrc]
  simp [singleRow]

/-- C3: in the bounded-internal-loop mode, the fused handler queries the
prediction service at most 32 times, sleeping the fixed 6000 ms interval
before each query, and when the loop exhausts without the prediction
reaching a terminal status the invocation answers a 500 error
("Video not ready after polling") instead of reporting success. -/
theorem C3_bounded_loop
    (req : ReqV1) (env : EnvServe) (row : JobRow) (bytes : List Nat) (idOpt : Option Str)
    (hv : reqV1Valid req = true)
    (hq : env.jobQuery = Except.ok [row])
    (hdec : atobStrict (req.smallImageBase64.getD []) = some bytes)
    (hup : env.uploadError = none)
    (hrc : env.replicateCreate = Except.ok idOpt)
    (hnon : ∀ i, i < 32 → terminalPollStatus ((env.poll i).status) = false) :
    (serveSetspace req env).trace.pollGets = 32 ∧
    (serveSetspace req env).trace.sleeps = List.replicate 32 pollIntervalMs ∧
    (serveSetspace req env).resp.status = 500 ∧
    (serveSetspace req env).resp.error = some "Video not ready after polling".data ∧
    (serveSetspace req env).resp.success = false ∧
    (∀ r2 e2, (serveSetspace r2 e2).trace.pollGets ≤ 32) ∧
    (∀ r2 e2 t, t ∈ (serveSetspace r2 e2).trace.sleeps → t = pollIntervalMs) := by
  have hloop := pollLoopFrom_exhausted env.poll 0 32 (by
    intro j hj
    simpa using hnon j hj)
  have hrun := serve_run_loop req env row bytes idOpt hv hq hdec hup hrc
  rw [hrun, hloop]
  refine ⟨?_, ?_, ?_, ?_, ?_,
    fun r2 e2 => serve_pollGets_le r2 e2,
    fun r2 e2 t ht => serve_sleeps_six r2 e2 t ht⟩
  all_goals simp [serveFinish, respErr]

/-- C3 witness: a valid request whose external prediction stays
`"processing"` for all 32 polls — 32 queries, then the 500 error. -/
theorem C3_bounded_loop_witness :
    (serveSetspace ⟨some "j1".data, some "a.jpg".data, some "aGk=".data, none⟩
        ⟨Except.ok [⟨none, none, none⟩], none, "https://supa".data, "sig".data,
          FetchJson.ok (some "desc".data), Except.ok (some "p1".data),
          fun _ => ⟨"processing".data, none⟩⟩).trace.pollGets = 32 ∧
    (serveSetspace ⟨some "j1".data, some "a.jpg".data, some "aGk=".data, none⟩
        ⟨Except.ok [⟨none, none, none⟩], none, "https://supa".data, "sig".data,
          FetchJson.ok (some "desc".data), Except.ok (some "p1".data),
          fun _ => ⟨"processing".data, none⟩⟩).resp.status = 500 ∧
    (serveSetspace ⟨some "j1".data, some "a.jpg".data, some "aGk=".data, none⟩
        ⟨Except.ok [⟨none, none, none⟩], none, "https://supa".data, "sig".data,
          FetchJson.ok (some "desc".data), Except.ok (some "p1".data),
          fun _ => ⟨"processing".data, none⟩⟩).resp.error =
      some "Video not ready after polling".data := by
  have h := C3_bounded_loop ⟨some "j1".data, some "a.jpg".data, some "aGk=".data, none⟩
    ⟨Except.ok [⟨none, none, none⟩], none, "https://supa".data, "sig".data,
      FetchJson.ok (some "desc".data), Except.ok (some "p1".data),
      fun _ => ⟨"processing".data, none⟩⟩
    ⟨none, none, none⟩ [104, 105] (some "p1".data)
    (by decide) rfl (by decide) rfl rfl
    (fun i _ =>
      show terminalPollStatus ((⟨"processing".data, none⟩ : PollData)).status = false by decide)
  exact ⟨h.1, h.2.2.1, h.2.2.2.1⟩

/-- C1 counterexample: in the `setspace-function.js` variant, with the
job's camera control `"zoom-in"` and the description service failing,
the submission still succeeds but the forwarded fallback prompt is the
fixed `"A cinematic scene."`, which does not contain the camera-control
instruction verbatim. -/
theorem C1_fallback_verbatim_cex :
    (setspaceFnHandler ⟨some "j1".data, some "a.jpg".data, some "aGk=".data, none⟩
        ⟨Except.ok [⟨some "zoom-in".data, some "720p".data, some 5⟩], none,
          Except.ok "https://signed".data, Except.error "OpenAI down".data,
          Except.ok (some "p1".data)⟩).resp.success = true ∧
    (setspaceFnHandler ⟨some "j1".data, some "a.jpg".data, some "aGk=".data, none⟩
        ⟨Except.ok [⟨some "zoom-in".data, some "720p".data, some 5⟩], none,
          Except.ok "https://signed".data, Except.error "OpenAI down".data,
          Except.ok (some "p1".data)⟩).trace.replicateCreates =
      [⟨"A cinematic scene.".data, "https://signed".data, some 5, none,
        some "kwaivgi/kling-v1.6-standard".data⟩] ∧
    ¬ List.IsInfix "zoom-in".data "A cinematic scene.".data := by
  exact ⟨by decide, by decide, by decide⟩

/-- C1 amended: when the description-service call fails (network error,
non-success response, or empty content) the Orchestrator still returns
`success: true` with a non-empty fallback prompt and never surfaces the
description failure as the operation's failure; in the `part001v2`
variant the fallback contains the supplied camera-control instruction
verbatim, while the `setspace-function.js` variant uses the fixed
non-empty fallback `"A cinematic scene."` that does not encode the
instruction. -/
theorem C1_fallback_policy
    (req : Req7) (op : Except Str (Option Str)) (u pid : Str)
    (hv : req7Valid req = true) (hop : descFailed op = true) (hpid : pid.isEmpty = false)
    (reqb : ReqV1) (rowb : JobRow) (ub : Str) (opb : Except Str (Option Str)) (idb : Option Str)
    (hvb : reqV1Valid reqb = true) (hopb : descFailed opb = true) :
    ((part001v2 req ⟨none, Except.ok u, op, Except.ok (some pid)⟩).resp.success = true ∧
     (part001v2 req ⟨none, Except.ok u, op, Except.ok (some pid)⟩).resp.status = 200 ∧
     (part001v2 req ⟨none, Except.ok u, op, Except.ok (some pid)⟩).trace.replicateCreates =
       [⟨(fallbackPromptFor (req.camera_control.getD [])).take 350, u, none,
         some (klingVersionFor (req.video_size.getD [])), none⟩] ∧
     fallbackPromptFor (req.camera_control.getD []) ≠ [] ∧
     List.IsInfix (req.camera_control.getD [])
       (fallbackPromptFor (req.camera_control.getD []))) ∧
    ((setspaceFnHandler reqb ⟨Except.ok [rowb], none, Except.ok ub, opb,
        Except.ok idb⟩).resp.success = true ∧
     (setspaceFnHandler reqb ⟨Except.ok [rowb], none, Except.ok ub, opb,
        Except.ok idb⟩).resp.status = 200 ∧
     (setspaceFnHandler reqb ⟨Except.ok [rowb], none, Except.ok ub, opb,
        Except.ok idb⟩).trace.replicateCreates =
       [⟨"A cinematic scene.".data, reqb.imageUrl.getD ub, some (rowb.duration.getD 5), none,
         some "kwaivgi/kling-v1.6-standard".data⟩] ∧
     ("A cinematic scene.".data : Str) ≠ []) := by
  constructor
  · rw [part001v2_run req op u pid hv hpid, v2Prompt_of_descFailed op _ hop]
    refine ⟨rfl, rfl, rfl, by simp [fallbackPromptFor], ?_⟩
    exact ⟨"A realistic scene with ".data,
      " camera movement and natural ambient motion.".data, rfl⟩
  · rw [setspaceFn_run reqb rowb ub opb idb hvb, v1Prompt_of_descFailed opb hopb]
    exact ⟨rfl, rfl, rfl, by decide⟩

/-- C1 amended witness: concrete failing description calls in both
variants, with camera control `"zoom-in"`. -/
theorem C1_fallback_policy_witness :
    (part001v2 ⟨some "j1".data, some "a.jpg".data, some "aGk=".data, some "http://orig".data,
        some "zoom-in".data, some "720p".data, some 5⟩
      ⟨none, Except.ok "https://signed".data, Except.error "down".data,
        Except.ok (some "p1".data)⟩).resp.success = true ∧
    List.IsInfix "zoom-in".data (fallbackPromptFor "zoom-in".data) ∧
    (setspaceFnHandler ⟨some "j2".data, some "b.jpg".data, some "aGk=".data, none⟩
      ⟨Except.ok [⟨some "zoom-in".data, none, none⟩], none, Except.ok "https://s2".data,
        Except.ok none, Except.ok (some "p2".data)⟩).resp.success = true := by
  have h := C1_fallback_policy
    ⟨some "j1".data, some "a.jpg".data, some "aGk=".data, some "http://orig".data,
      some "zoom-in".data, some "720p".data, some 5⟩
    (Except.error "down".data) "https://signed".data "p1".data
    (by decide) (by decide) (by decide)
    ⟨some "j2".data, some "b.jpg".data, some "aGk=".data, none⟩
    ⟨some "zoom-in".data, none, none⟩ "https://s2".data (Except.ok none) (some "p2".data)
    (by decide) (by decide)
  exact ⟨h.1.1, h.1.2.2.2.2, h.2.1⟩

/-- C4 amended: in the `part001v2` variant every prompt forwarded to the
prediction-creation call is at most 350 characters long (the generated
description is truncated with `slice(0, 350)`); the `setspace-function.js`
variant forwards the description untruncated. -/
theorem C4_prompt_truncated (req : Req7) (env : EnvV2) (r : ReplicateReq)
    (hr : r ∈ (part001v2 req env).trace.replicateCreates) :
    r.prompt.length ≤ 350 := by
  unfold part001v2 at hr
  repeat' split at hr
  all_goals simp [emptyTrace] at hr
  all_goals subst hr
  all_goals exact List.length_take_le _ _

/-- C4 amended witness: the request forwarded by a concrete `part001v2`
run with a failing description call is within the bound. -/
theorem C4_prompt_truncated_witness :
    ((⟨(fallbackPromptFor "zoom-in".data).take 350, "https://signed".data, none,
      some stdVersionHash, none⟩ : ReplicateReq)).prompt.length ≤ 350 :=
  C4_prompt_truncated
    ⟨some "j1".data, some "a.jpg".data, some "aGk=".data, some "http://x".data,
      some "zoom-in".data, some "720p".data, some 5⟩
    ⟨none, Except.ok "https://signed".data, Except.error "down".data,
      Except.ok (some "p1".data)⟩
    _ (by decide)

set_option maxRecDepth 4000 in
/-- C4 counterexample: the `setspace-function.js` variant forwards a
351-character description to the prediction-creation call unchanged, so
the forwarded prompt exceeds 350 characters. -/
theorem C4_overlong_prompt_cex :
    (setspaceFnHandler ⟨some "j1".data, some "a.jpg".data, some "aGk=".data, none⟩
        ⟨Except.ok [⟨none, none, none⟩], none, Except.ok "u".data,
          Except.ok (some (List.replicate 351 'a')), Except.ok (some "p1".data)⟩
      ).resp.success = true ∧
    350 < ((setspaceFnHandler ⟨some "j1".data, some "a.jpg".data, some "aGk=".data, none⟩
        ⟨Except.ok [⟨none, none, none⟩], none, Except.ok "u".data,
          Except.ok (some (List.replicate 351 'a')), Except.ok (some "p1".data)⟩
      ).trace.replicateCreates.headD ⟨[], [], none, none, none⟩).prompt.length := by
  exact ⟨by decide, by decide⟩

/-- C5 amended: size tier `"1080p"` selects the high-tier profile and
any other *present* value selects the standard profile, in both the
model-and-version selection of `setspace-function.js` and the
version-only selection of `part_000`/`part_001`; but in the variants
that perform this selection the size tier is a required request field,
so a missing tier fails the validation with a 400 error instead of
defaulting to the standard profile. -/
theorem C5_profile_selection (vs : Str) (req : Req7) (env : EnvV2)
    (hvs : vs ≠ "1080p".data) (hmiss : req.video_size = none) :
    klingSelect "1080p".data = ("kwaivgi/kling-v1.6-pro".data, proVersionHash) ∧
    klingSelect vs = ("kwaivgi/kling-v1.6-standard".data, stdVersionHash) ∧
    klingVersionFor "1080p".data = proVersionHash ∧
    klingVersionFor vs = stdVersionHash ∧
    (part001v2 req env).resp.status = 400 ∧
    (part001v2 req env).resp.success = false ∧
    (part001v2 req env).trace = emptyTrace := by
  have hval : req7Valid req = false := by
    unfold req7Valid
    rw [hmiss]
    simp [truthy]
  have hrun : part001v2 req env = ⟨respErr 400 "Missing required fields".data, emptyTrace⟩ := by
    unfold part001v2
    rw [hval]
    rfl
  refine ⟨by decide, ?_, by decide, ?_, by rw [hrun]; rfl, by rw [hrun]; rfl, by rw [hrun]⟩
  · unfold klingSelect
    rw [if_neg hvs]
  · unfold klingVersionFor
    rw [if_neg hvs]

/-- C5 amended witness: tier `"720p"` and a request with the tier
absent. -/
theorem C5_profile_selection_witness :
    klingSelect "1080p".data = ("kwaivgi/kling-v1.6-pro".data, proVersionHash) ∧
    klingSelect "720p".data = ("kwaivgi/kling-v1.6-standard".data, stdVersionHash) ∧
    (part001v2 ⟨some "j1".data, some "a.jpg".data, some "aGk=".data, some "http://x".data,
        some "zoom-in".data, none, some 5⟩
      ⟨none, Except.ok "u".data, Except.ok (some "d".data),
        Except.ok (some "p1".data)⟩).resp.status = 400 := by
  have h := C5_profile_selection "720p".data
    ⟨some "j1".data, some "a.jpg".data, some "aGk=".data, some "http://x".data,
      some "zoom-in".data, none, some 5⟩
    ⟨none, Except.ok "u".data, Except.ok (some "d".data), Except.ok (some "p1".data)⟩
    (by decide) rfl
  exact ⟨h.1, h.2.1, h.2.2.2.2.1⟩

/-- C5 counterexample: a submission with the size tier absent (all other
fields present) fails with a 400 validation error in `part001v2` — a
missing tier does cause the operation to fail, instead of selecting the
standard profile. -/
theorem C5_missing_tier_fails_cex :
    (part001v2 ⟨some "j2".data, some "b.jpg".data, some "aGk=".data, some "http://y".data,
        some "stationary".data, none, some 5⟩
      ⟨none, Except.ok "u".data, Except.ok (some "d".data),
        Except.ok (some "p2".data)⟩).resp.status = 400 ∧
    (part001v2 ⟨some "j2".data, some "b.jpg".data, some "aGk=".data, some "http://y".data,
        some "stationary".data, none, some 5⟩
      ⟨none, Except.ok "u".data, Except.ok (some "d".data),
        Except.ok (some "p2".data)⟩).resp.success = false := by
  exact ⟨by decide, by decide⟩

/-- C6 amended: in the `part_000`/`part_001` variants, a prediction
response without a truthy `id` aborts the operation with a 500 error
("Replicate prediction failed: No valid ID.") and no success is
reported; the `setspace-function.js` variant performs no such check and
still reports `success: true`. -/
theorem C6_missing_handle_fails (req : Req7) (op : Except Str (Option Str)) (u : Str)
    (idOpt : Option Str)
    (hv : req7Valid req = true) (hid : truthy idOpt = false) :
    (part001v2 req ⟨none, Except.ok u, op, Except.ok idOpt⟩).resp.status = 500 ∧
    (part001v2 req ⟨none, Except.ok u, op, Except.ok idOpt⟩).resp.success = false ∧
    (part001v2 req ⟨none, Except.ok u, op, Except.ok idOpt⟩).resp.error =
      some "Replicate prediction failed: No valid ID.".data := by
  unfold part001v2
  rw [hv]
  simp [hid, respErr]

/-- C6 amended witness: a valid request whose prediction-creation
response parses without an `id`. -/
theorem C6_missing_handle_fails_witness :
    (part001v2 ⟨some "j1".data, some "a.jpg".data, some "aGk=".data, some "http://x".data,
        some "zoom-in".data, some "720p".data, some 5⟩
      ⟨none, Except.ok "u".data, Except.ok (some "d".data),
        Except.ok none⟩).resp.status = 500 :=
  (C6_missing_handle_fails
    ⟨some "j1".data, some "a.jpg".data, some "aGk=".data, some "http://x".data,
      some "zoom-in".data, some "720p".data, some 5⟩
    (Except.ok (some "d".data)) "u".data none (by decide) (by decide)).1

/-- C6 counterexample: the `setspace-function.js` variant, given a
prediction-creation response with no `id`, still updates the job twice
and answers 200 `success: true` with an absent `predictionId`. -/
theorem C6_success_without_handle_cex :
    (setspaceFnHandler ⟨some "j1".data, some "a.jpg".data, some "aGk=".data, none⟩
        ⟨Except.ok [⟨none, none, none⟩], none, Except.ok "u".data,
          Except.ok (some "d".data), Except.ok none⟩).resp.status = 200 ∧
    (setspaceFnHandler ⟨some "j1".data, some "a.jpg".data, some "aGk=".data, none⟩
        ⟨Except.ok [⟨none, none, none⟩], none, Except.ok "u".data,
          Except.ok (some "d".data), Except.ok none⟩).resp.success = true ∧
    (setspaceFnHandler ⟨some "j1".data, some "a.jpg".data, some "aGk=".data, none⟩
        ⟨Except.ok [⟨none, none, none⟩], none, Except.ok "u".data,
          Except.ok (some "d".data), Except.ok none⟩).resp.predictionId = none ∧
    (setspaceFnHandler ⟨some "j1".data, some "a.jpg".data, some "aGk=".data, none⟩
        ⟨Except.ok [⟨none, none, none⟩], none, Except.ok "u".data,
          Except.ok (some "d".data), Except.ok none⟩).trace.jobUpdates = 2 := by
  exact ⟨by decide, by decide, by decide, by decide⟩

/-- C7 amended: a request missing a required input performs no side
effect (no jobs-table read or update, no storage write, no outbound
call) in either variant, and is answered with a 400 validation error by
the `setspace-function.js` variant — but with a **500** error
("Missing required fields", via throw and the catch-all) by the
`part_001` first-handler variant. -/
theorem C7_validation_no_side_effects (req : ReqV1) (env : EnvV1) (envp : EnvP1)
    (hv : reqV1Valid req = false) :
    (setspaceFnHandler req env).resp.status = 400 ∧
    (setspaceFnHandler req env).resp.error =
      some "Missing jobId, filename, or smallImageBase64".data ∧
    (setspaceFnHandler req env).trace = emptyTrace ∧
    (part001v1 req envp).resp.status = 500 ∧
    (part001v1 req envp).resp.error = some "Missing required fields".data ∧
    (part001v1 req envp).trace = emptyTrace := by
  unfold setspaceFnHandler part001v1
  simp [hv, respErr]

/-- C7 amended witness: a request missing `jobId`. -/
theorem C7_validation_no_side_effects_witness :
    (setspaceFnHandler ⟨none, some "a.jpg".data, some "aGk=".data, none⟩
        ⟨Except.ok [], none, Except.ok "u".data, Except.ok none,
          Except.ok none⟩).resp.status = 400 ∧
    (setspaceFnHandler ⟨none, some "a.jpg".data, some "aGk=".data, none⟩
        ⟨Except.ok [], none, Except.ok "u".data, Except.ok none,
          Except.ok none⟩).trace = emptyTrace ∧
    (part001v1 ⟨none, some "a.jpg".data, some "aGk=".data, none⟩
        ⟨none, "https://supa".data, "sig".data, FetchJson.ok none,
          Except.ok none⟩).trace = emptyTrace := by
  have h := C7_validation_no_side_effects ⟨none, some "a.jpg".data, some "aGk=".data, none⟩
    ⟨Except.ok [], none, Except.ok "u".data, Except.ok none, Except.ok none⟩
    ⟨none, "https://supa".data, "sig".data, FetchJson.ok none, Except.ok none⟩
    (by decide)
  exact ⟨h.1, h.2.2.1, h.2.2.2.2.2⟩

/-- C7 counterexample: the `part_001` first handler answers a request
with a missing `jobId` with HTTP status 500, not the claimed 400. -/
theorem C7_part001_returns_500_cex :
    (part001v1 ⟨none, some "a.jpg".data, some "aGk=".data, none⟩
        ⟨none, "https://supa".data, "sig".data, FetchJson.ok (some "d".data),
          Except.ok (some "p1".data)⟩).resp.status = 500 ∧
    (part001v1 ⟨none, some "a.jpg".data, some "aGk=".data, none⟩
        ⟨none, "https://supa".data, "sig".data, FetchJson.ok (some "d".data),
          Except.ok (some "p1".data)⟩).resp.status ≠ 400 := by
  exact ⟨by decide, by decide⟩

/-- C9 amended: the atob-based fused variant fails on a malformed base64
payload with a 500 error and performs no storage write; the
`Buffer.from`-based variants never fail decoding — the payload decodes
best-effort and the handler proceeds to the storage write. -/
theorem C9_decode_behavior (req : ReqV1) (env : EnvServe) (row : JobRow)
    (hv : reqV1Valid req = true)
    (hq : env.jobQuery = Except.ok [row])
    (hbad : atobStrict (req.smallImageBase64.getD []) = none)
    (reqb : ReqV1) (rowb : JobRow) (u : Str) (op : Except Str (Option Str)) (idOpt : Option Str)
    (hvb : reqV1Valid reqb = true) :
    ((serveSetspace req env).resp.status = 500 ∧
     (serveSetspace req env).resp.success = false ∧
     (serveSetspace req env).trace.storageWrites = []) ∧
    ((setspaceFnHandler reqb ⟨Except.ok [rowb], none, Except.ok u, op,
        Except.ok idOpt⟩).trace.storageWrites =
       [("jobs/".data ++ (reqb.filename.getD []),
         bufferFromBase64 (reqb.smallImageBase64.getD []))] ∧
     (setspaceFnHandler reqb ⟨Except.ok [rowb], none, Except.ok u, op,
        Except.ok idOpt⟩).resp.status = 200) := by
  constructor
  · have hrun : serveSetspace req env =
        ⟨respErr 500 "InvalidCharacterError".data, ⟨1, [], 0, 0, 0, [], 0, []⟩⟩ := by
      unfold serveSetspace
      rw [hv, hq, hbad]
      simp [singleRow]
    rw [hrun]
    exact ⟨rfl, rfl, rfl⟩
  · rw [setspaceFn_run reqb rowb u op idOpt hvb]
    exact ⟨rfl, rfl⟩

/-- C9 amended witness: the malformed payload `"!!!"` in both variants. -/
theorem C9_decode_behavior_witness :
    (serveSetspace ⟨some "j1".data, some "a.jpg".data, some "!!!".data, none⟩
        ⟨Except.ok [⟨none, none, none⟩], none, "s".data, "g".data,
          FetchJson.ok (some "d".data), Except.ok (some "p1".data),
          fun _ => ⟨"succeeded".data, some "v".data⟩⟩).resp.status = 500 ∧
    (serveSetspace ⟨some "j1".data, some "a.jpg".data, some "!!!".data, none⟩
        ⟨Except.ok [⟨none, none, none⟩], none, "s".data, "g".data,
          FetchJson.ok (some "d".data), Except.ok (some "p1".data),
          fun _ => ⟨"succeeded".data, some "v".data⟩⟩).trace.storageWrites = [] := by
  have h := C9_decode_behavior ⟨some "j1".data, some "a.jpg".data, some "!!!".data, none⟩
    ⟨Except.ok [⟨none, none, none⟩], none, "s".data, "g".data,
      FetchJson.ok (some "d".data), Except.ok (some "p1".data),
      fun _ => ⟨"succeeded".data, some "v".data⟩⟩
    ⟨none, none, none⟩ (by decide) rfl (by decide)
    ⟨some "j1".data, some "a.jpg".data, some "!!!".data, none⟩
    ⟨none, none, none⟩ "u".data (Except.ok (some "d".data)) (some "p1".data) (by decide)
  exact ⟨h.1.1, h.1.2.2⟩

/-- C9 counterexample: `"!!!"` is not valid base64 (the strict decode
throws), yet the `setspace-function.js` variant does not fail — it
stores the best-effort-decoded (empty) byte payload and answers 200. -/
theorem C9_lenient_decode_cex :
    atobStrict "!!!".data = none ∧
    (setspaceFnHandler ⟨some "j1".data, some "a.jpg".data, some "!!!".data, none⟩
        ⟨Except.ok [⟨none, none, none⟩], none, Except.ok "u".data,
          Except.ok (some "d".data), Except.ok (some "p1".data)⟩).resp.status = 200 ∧
    (setspaceFnHandler ⟨some "j1".data, some "a.jpg".data, some "!!!".data, none⟩
        ⟨Except.ok [⟨none, none, none⟩], none, Except.ok "u".data,
          Except.ok (some "d".data), Except.ok (some "p1".data)⟩).resp.success = true ∧
    (setspaceFnHandler ⟨some "j1".data, some "a.jpg".data, some "!!!".data, none⟩
        ⟨Except.ok [⟨none, none, none⟩], none, Except.ok "u".data,
          Except.ok (some "d".data), Except.ok (some "p1".data)⟩).trace.storageWrites =
      [("jobs/a.jpg".data, [])] := by
  exact ⟨by decide, by decide, by decide, by decide⟩
